import Mathlib

set_option autoImplicit false

/-!
Verification development for the Hexagon device API facade
(src/src/runtime/hexagon/hexagon_device_api.h).

The header defines the facade class HexagonDeviceAPI.  The members whose
bodies appear in the header are embedded directly from that source:
AllocateHexagonBuffer (lines 152-158), IsValidDevice (lines 163-167),
SetDevice (line 65) and StreamSync (line 71), together with the data
members hexagon_buffer_map_ (line 174), free_streams (line 179) and
active_stream (line 180) and the Dispatch declaration with its default
stream argument (line 138).  Members only declared in the header
(FreeHexagonBuffer, FreeDataSpace, the Nd AllocDataSpace,
AllocVtcmWorkspace, CreateStream, FreeStream, Dispatch bodies) are
modelled from the specification; each such definition carries a doc
comment saying so.
-/

/-- Pointers are modelled as natural numbers below 2 to the 64, matching
64-bit machine addresses. -/
abbrev Ptr := Nat

/-- Modelled from the spec: the allocation-object collaborator (class
HexagonBuffer, declared in hexagon_buffer.h which is not under src).
Per spec section 6 it exposes its base address and a total byte size. -/
structure HexagonBuffer where
  basePtr : Ptr
  nbytes : Nat
deriving DecidableEq, Repr

/-- The GetPointer accessor of the allocation object (called at line 155
of the header). -/
def HexagonBuffer.GetPointer (b : HexagonBuffer) : Ptr := b.basePtr

/-- The type of hexagon_buffer_map_ (header line 174), an
unordered_map from the raw pointer to the owning buffer, embedded as an
association list with unique keys. -/
abbrev BufferMap := List (Ptr × HexagonBuffer)

/-- Key membership in the buffer map. -/
def containsKey (m : BufferMap) (k : Ptr) : Bool :=
  m.any (fun e => e.1 == k)

/-- Key lookup in the buffer map, matching unordered_map find. -/
def mapLookup (m : BufferMap) (k : Ptr) : Option HexagonBuffer :=
  match m with
  | [] => none
  | e :: rest => if e.1 == k then some e.2 else mapLookup rest k

/-- The semantics of unordered_map insert as used at header line 156:
when the key is already present the map is left unchanged (the argument
pair, and with it the moved-in unique_ptr, is discarded); otherwise the
pair is added. -/
def mapInsert (m : BufferMap) (k : Ptr) (v : HexagonBuffer) : BufferMap :=
  if containsKey m k then m else (k, v) :: m

/-- The semantics of unordered_map erase by key: every entry with the
key is removed. -/
def mapErase (m : BufferMap) (k : Ptr) : BufferMap :=
  m.filter (fun e => !(e.1 == k))

/-- AllocateHexagonBuffer, header lines 152-158.  The template forwards
its arguments to the HexagonBuffer constructor, an external collaborator
that can fail (throw); the parameter construct is the outcome of that
construction, none meaning the constructor threw so the exception
propagates before any insert.  On success the body reads GetPointer,
inserts the pair into hexagon_buffer_map_ and returns the pointer.
The result is (returned pointer if the call completed, updated map). -/
def AllocateHexagonBuffer (m : BufferMap) (construct : Option HexagonBuffer) :
    Option Ptr × BufferMap :=
  match construct with
  | none => (none, m)
  | some buf =>
    let ptr := buf.GetPointer
    (some ptr, mapInsert m ptr buf)

theorem containsKey_mapInsert_self (m : BufferMap) (k : Ptr) (v : HexagonBuffer) :
    containsKey (mapInsert m k v) k = true := by
  unfold mapInsert
  split
  · assumption
  · simp [containsKey]

theorem mapInsert_of_containsKey (m : BufferMap) (k : Ptr) (v : HexagonBuffer)
    (h : containsKey m k = true) : mapInsert m k v = m := by
  simp [mapInsert, h]

theorem containsKey_mapErase_self (m : BufferMap) (k : Ptr) :
    containsKey (mapErase m k) k = false := by
  induction m with
  | nil => rfl
  | cons e rest ih =>
    by_cases hk : e.1 = k
    · simp [mapErase, List.filter_cons, hk, containsKey] at ih ⊢
    · simp [mapErase, List.filter_cons, hk, containsKey] at ih ⊢

/-- C1 counterexample: with the registry already holding key 5, an
allocation whose new buffer has base address 5 does not fail: the call
completes, returns the pointer, and leaves the registry unchanged. -/
theorem duplicate_register_does_not_fail :
    containsKey [(5, HexagonBuffer.mk 5 16)] 5 = true ∧
    AllocateHexagonBuffer [(5, HexagonBuffer.mk 5 16)] (some (HexagonBuffer.mk 5 32)) =
      (some 5, [(5, HexagonBuffer.mk 5 16)]) := by
  constructor
  · rfl
  · rfl

/-- C1 (amended): when the base address of the new buffer is already a
key of the registry, the register step does not fail: unordered_map
insert leaves the existing entry in place, the new buffer is discarded,
and the call completes returning the pointer. -/
theorem duplicate_register_silently_keeps_old_entry (m : BufferMap) (buf : HexagonBuffer)
    (h : containsKey m buf.basePtr = true) :
    (AllocateHexagonBuffer m (some buf)).1 = some buf.basePtr ∧
    (AllocateHexagonBuffer m (some buf)).2 = m := by
  refine ⟨rfl, ?_⟩
  simp [AllocateHexagonBuffer, HexagonBuffer.GetPointer, mapInsert_of_containsKey m _ _ h]

/-- Witness for the amended C1 theorem at a concrete registry. -/
theorem duplicate_register_silently_keeps_old_entry_witness :
    (AllocateHexagonBuffer [(7, HexagonBuffer.mk 7 8)] (some (HexagonBuffer.mk 7 24))).1 = some 7 ∧
    (AllocateHexagonBuffer [(7, HexagonBuffer.mk 7 8)] (some (HexagonBuffer.mk 7 24))).2 =
      [(7, HexagonBuffer.mk 7 8)] :=
  duplicate_register_silently_keeps_old_entry [(7, HexagonBuffer.mk 7 8)]
    (HexagonBuffer.mk 7 24) (by decide)

/-- C2: every allocation call is atomic with respect to the registry:
either construction fails, the call fails and the map is unchanged, or
the call succeeds returning the base pointer of the constructed buffer
and that pointer is a key of the resulting map. -/
theorem allocateHexagonBuffer_atomic (m : BufferMap) (construct : Option HexagonBuffer) :
    (construct = none ∧ AllocateHexagonBuffer m construct = (none, m)) ∨
    (∃ buf, construct = some buf ∧
      (AllocateHexagonBuffer m construct).1 = some buf.GetPointer ∧
      containsKey (AllocateHexagonBuffer m construct).2 buf.GetPointer = true) := by
  cases construct with
  | none => exact Or.inl ⟨rfl, rfl⟩
  | some buf =>
    refine Or.inr ⟨buf, rfl, rfl, ?_⟩
    simpa [AllocateHexagonBuffer] using
      containsKey_mapInsert_self m buf.GetPointer buf

/-- C10: when the base pointer of the new buffer is already a key of the
owned buffer map, the existing entry is retained (the lookup still finds
the old owner), no error is reported, and the call still returns that
base pointer. -/
theorem duplicate_insert_retains_old_owner (m : BufferMap) (buf old : HexagonBuffer)
    (h : mapLookup m buf.basePtr = some old) :
    AllocateHexagonBuffer m (some buf) = (some buf.basePtr, m) ∧
    mapLookup (AllocateHexagonBuffer m (some buf)).2 buf.basePtr = some old := by
  have hc : containsKey m buf.basePtr = true := by
    induction m with
    | nil => simp [mapLookup] at h
    | cons e rest ih =>
      by_cases hk : e.1 = buf.basePtr
      · simp [containsKey, hk]
      · simp [mapLookup, hk] at h
        simpa [containsKey, hk] using ih h
  have h2 : AllocateHexagonBuffer m (some buf) = (some buf.basePtr, m) := by
    simp [AllocateHexagonBuffer, HexagonBuffer.GetPointer, mapInsert_of_containsKey m _ _ hc]
  exact ⟨h2, by rw [h2]; exact h⟩

/-- Witness for C10 at a concrete registry holding an old owner. -/
theorem duplicate_insert_retains_old_owner_witness :
    AllocateHexagonBuffer [(9, HexagonBuffer.mk 9 4)] (some (HexagonBuffer.mk 9 12)) =
      (some 9, [(9, HexagonBuffer.mk 9 4)]) ∧
    mapLookup (AllocateHexagonBuffer [(9, HexagonBuffer.mk 9 4)]
        (some (HexagonBuffer.mk 9 12))).2 9 = some (HexagonBuffer.mk 9 4) :=
  duplicate_insert_retains_old_owner [(9, HexagonBuffer.mk 9 4)]
    (HexagonBuffer.mk 9 12) (HexagonBuffer.mk 9 4) (by decide)

/-- Typed errors of the facade, from spec section 7. -/
inductive HexError where
  | NotFound
  | ResourceExhausted
  | InvalidState
deriving DecidableEq, Repr

/-- Modelled from the spec: the body of FreeHexagonBuffer (declared at
header line 172) is not under src.  Per spec sections 4.1 and 4.2, free
resolves the address through the Registry, unregisters it and destroys
the owning allocation; free of an address not in the Registry fails with
NotFound, never a no-op. -/
def FreeHexagonBuffer (m : BufferMap) (ptr : Ptr) : Except HexError BufferMap :=
  if containsKey m ptr then Except.ok (mapErase m ptr)
  else Except.error HexError.NotFound

/-- C3: after a successful allocate/free pair on the same address, the
address is absent from the registry key set, and a second free of that
address fails with NotFound. -/
theorem free_then_second_free_not_found (m m1 m2 : BufferMap) (buf : HexagonBuffer) (p : Ptr)
    (halloc : AllocateHexagonBuffer m (some buf) = (some p, m1))
    (hfree : FreeHexagonBuffer m1 p = Except.ok m2) :
    containsKey m2 p = false ∧
    FreeHexagonBuffer m2 p = Except.error HexError.NotFound := by
  have hm2 : m2 = mapErase m1 p := by
    unfold FreeHexagonBuffer at hfree
    split at hfree
    · injection hfree with h2
      exact h2.symm
    · exact absurd hfree (by simp)
  have habs : containsKey m2 p = false := by
    rw [hm2]; exact containsKey_mapErase_self m1 p
  exact ⟨habs, by simp [FreeHexagonBuffer, habs]⟩

/-- Witness for C3: allocate address 7 into an empty registry, free it,
observe absence and a NotFound on the second free. -/
theorem free_then_second_free_not_found_witness :
    containsKey [] 7 = false ∧
    FreeHexagonBuffer [] 7 = Except.error HexError.NotFound :=
  free_then_second_free_not_found [] [(7, HexagonBuffer.mk 7 64)] []
    (HexagonBuffer.mk 7 64) 7 (by decide) (by rfl)

/-- The default memory scope tag of spec section 6. -/
def globalScopeTag : String := "global"

/-- Scope test of the Nd AllocDataSpace (header lines 88-107): the
delegating branch is taken when mem_scope is undefined or equals
the global tag. -/
def isGlobalScope (mem_scope : Option String) : Bool :=
  match mem_scope with
  | none => true
  | some s => s == globalScopeTag

/-- Element size in bytes of a dtype with the given bit width and lane
count, rounded up to whole bytes. -/
def elemBytes (bits lanes : Nat) : Nat := (bits * lanes + 7) / 8

/-- Product of the dimensions of a shape. -/
def shapeProduct (shape : List Nat) : Nat := shape.foldl (fun a d => a * d) 1

/-- Modelled from the spec: the flat AllocDataSpace (declared at header
line 75, body not under src) constructs a flat allocation of exactly
nbytes bytes; this is the total byte size it allocates. -/
def flatAllocBytes (nbytes : Nat) : Nat := nbytes

/-- Which allocation path the Nd allocator takes. -/
inductive AllocPath where
  | flat
  | scoped
deriving DecidableEq, Repr

/-- Result of an Nd allocation request: the path taken and the total
byte size allocated. -/
structure NdAllocResult where
  path : AllocPath
  nbytes : Nat
deriving DecidableEq, Repr

/-- Modelled from the spec: the Nd AllocDataSpace (declared at header
lines 106-107, body not under src).  Per the header doc comment (lines
88-105) and spec section 4.3: when mem_scope is undefined or global the
shape is flattened, bytes = product(shape) * elementSize, and the call
delegates to the flat allocator; otherwise the shape is the N-d physical
shape kept by a scoped allocation. -/
def AllocDataSpaceNd (shape : List Nat) (bits lanes : Nat) (mem_scope : Option String) :
    NdAllocResult :=
  if isGlobalScope mem_scope then
    NdAllocResult.mk AllocPath.flat (flatAllocBytes (shapeProduct shape * elemBytes bits lanes))
  else
    NdAllocResult.mk AllocPath.scoped (shapeProduct shape * elemBytes bits lanes)

/-- C4: with scope unset or global, the Nd allocation takes the flat
path and allocates exactly the byte size a flat allocation of
product(shape) * elementSize bytes allocates. -/
theorem ndalloc_global_equals_flat (shape : List Nat) (bits lanes : Nat)
    (mem_scope : Option String) (h : isGlobalScope mem_scope = true) :
    (AllocDataSpaceNd shape bits lanes mem_scope).path = AllocPath.flat ∧
    (AllocDataSpaceNd shape bits lanes mem_scope).nbytes =
      flatAllocBytes (shapeProduct shape * elemBytes bits lanes) := by
  simp [AllocDataSpaceNd, h]

/-- Witness for C4 at the spec scenario: shape [4, 256], 32-bit single
lane elements, scope global: 4096 bytes, same as the flat allocation. -/
theorem ndalloc_global_equals_flat_witness :
    (AllocDataSpaceNd [4, 256] 32 1 (some globalScopeTag)).path = AllocPath.flat ∧
    (AllocDataSpaceNd [4, 256] 32 1 (some globalScopeTag)).nbytes =
      flatAllocBytes (shapeProduct [4, 256] * elemBytes 32 1) :=
  ndalloc_global_equals_flat [4, 256] 32 1 (some globalScopeTag) (by decide)

/-- The memory region an allocation draws from. -/
inductive MemRegion where
  | vtcm
  | globalMem
deriving DecidableEq, Repr

/-- The bounded-capacity VTCM scratch pool: total capacity and bytes
currently in use. -/
structure VtcmPool where
  capacity : Nat
  used : Nat
deriving DecidableEq, Repr

/-- Modelled from the spec: AllocVtcmWorkspace (declared at header lines
117-118, body not under src).  Per spec section 4.4 it draws from the
bounded scratch region: when the requested size fits the remaining
capacity it allocates from VTCM, otherwise it fails with
ResourceExhausted and never redirects the request to general memory.
The result on success carries the region drawn from, the byte size and
the updated pool. -/
def AllocVtcmWorkspace (pool : VtcmPool) (shape : List Nat) (bits lanes : Nat) :
    Except HexError (MemRegion × Nat × VtcmPool) :=
  if pool.used + shapeProduct shape * elemBytes bits lanes ≤ pool.capacity then
    Except.ok (MemRegion.vtcm, shapeProduct shape * elemBytes bits lanes,
      VtcmPool.mk pool.capacity (pool.used + shapeProduct shape * elemBytes bits lanes))
  else
    Except.error HexError.ResourceExhausted

/-- C5: a scratch request larger than the remaining capacity fails with
ResourceExhausted, and no scratch call ever allocates from general
memory. -/
theorem vtcm_exhausted_fails_no_fallback (pool : VtcmPool) (shape : List Nat)
    (bits lanes : Nat)
    (h : pool.capacity - pool.used < shapeProduct shape * elemBytes bits lanes) :
    AllocVtcmWorkspace pool shape bits lanes = Except.error HexError.ResourceExhausted ∧
    ∀ nbytes pool2, AllocVtcmWorkspace pool shape bits lanes ≠
      Except.ok (MemRegion.globalMem, nbytes, pool2) := by
  have hfail : AllocVtcmWorkspace pool shape bits lanes =
      Except.error HexError.ResourceExhausted := by
    unfold AllocVtcmWorkspace
    split
    · exfalso
      omega
    · rfl
  exact ⟨hfail, fun nbytes pool2 => by simp [hfail]⟩

/-- Witness for C5: a 2048-byte request against an empty 1024-byte pool
fails with ResourceExhausted. -/
theorem vtcm_exhausted_fails_no_fallback_witness :
    AllocVtcmWorkspace (VtcmPool.mk 1024 0) [2048] 8 1 =
      Except.error HexError.ResourceExhausted ∧
    ∀ nbytes pool2, AllocVtcmWorkspace (VtcmPool.mk 1024 0) [2048] 8 1 ≠
      Except.ok (MemRegion.globalMem, nbytes, pool2) :=
  vtcm_exhausted_fails_no_fallback (VtcmPool.mk 1024 0) [2048] 8 1 (by decide)

/-- Stream handles are opaque tokens (TVMStreamHandle, a pointer),
modelled as natural numbers. -/
abbrev StreamHandle := Nat

/-- The stream pool state: free_streams is the data member at header
line 179; assigned is the set of handles currently given out, implicit
in the code as the handles returned by CreateStream and not yet passed
back to FreeStream. -/
structure StreamPool where
  free_streams : List StreamHandle
  assigned : List StreamHandle
deriving DecidableEq, Repr

/-- Modelled from the spec: CreateStream (declared at header line 134,
body not under src).  Per spec section 4.7 it pops one handle from the
free pool and fails with ResourceExhausted when the pool is empty. -/
def CreateStream (p : StreamPool) : Except HexError (StreamHandle × StreamPool) :=
  match p.free_streams with
  | [] => Except.error HexError.ResourceExhausted
  | h :: rest => Except.ok (h, StreamPool.mk rest (h :: p.assigned))

/-- Modelled from the spec: FreeStream (declared at header line 135,
body not under src).  Per spec section 4.7 it pushes the handle back to
the free pool and fails with InvalidState when the handle is not
currently assigned. -/
def FreeStream (p : StreamPool) (h : StreamHandle) : Except HexError StreamPool :=
  if h ∈ p.assigned then
    Except.ok (StreamPool.mk (h :: p.free_streams) (p.assigned.erase h))
  else
    Except.error HexError.InvalidState

/-- One step of a create/free call sequence; a failing call leaves the
pool unchanged. -/
inductive StreamOp where
  | create
  | free (h : StreamHandle)
deriving DecidableEq, Repr

/-- Apply one stream operation to the pool. -/
def applyStreamOp (p : StreamPool) (op : StreamOp) : StreamPool :=
  match op with
  | StreamOp.create =>
    match CreateStream p with
    | Except.ok r => r.2
    | Except.error _ => p
  | StreamOp.free h =>
    match FreeStream p h with
    | Except.ok p2 => p2
    | Except.error _ => p

/-- Apply a sequence of stream operations to the pool. -/
def applyStreamOps (p : StreamPool) (ops : List StreamOp) : StreamPool :=
  ops.foldl applyStreamOp p

/-- The pool invariant: the free and assigned handles together are a
permutation of the initial handle set. -/
def PoolWF (init : List StreamHandle) (p : StreamPool) : Prop :=
  List.Perm (p.free_streams ++ p.assigned) init

theorem applyStreamOp_preserves_wf (init : List StreamHandle) (p : StreamPool)
    (op : StreamOp) (hwf : PoolWF init p) : PoolWF init (applyStreamOp p op) := by
  unfold PoolWF at hwf ⊢
  cases op with
  | create =>
    cases hf : p.free_streams with
    | nil =>
      have heq : applyStreamOp p StreamOp.create = p := by
        simp [applyStreamOp, CreateStream, hf]
      rw [heq]
      exact hwf
    | cons a rest =>
      simp only [applyStreamOp, CreateStream, hf]
      refine List.Perm.trans ?_ hwf
      rw [hf]
      simp
  | free h =>
    by_cases hmem : h ∈ p.assigned
    · simp only [applyStreamOp, FreeStream, hmem, if_pos]
      refine List.Perm.trans ?_ hwf
      have h1 : List.Perm p.assigned (h :: p.assigned.erase h) :=
        List.perm_cons_erase hmem
      have h2 : List.Perm (p.free_streams ++ (h :: p.assigned.erase h))
          (p.free_streams ++ p.assigned) := List.Perm.append_left _ h1.symm
      have h3 : List.Perm ((h :: p.free_streams) ++ p.assigned.erase h)
          (p.free_streams ++ (h :: p.assigned.erase h)) := by
        simpa using (@List.perm_middle _ h p.free_streams (p.assigned.erase h)).symm
      exact h3.trans h2
    · simp only [applyStreamOp, FreeStream, hmem, if_neg]
      simpa using hwf

theorem applyStreamOps_preserves_wf (init : List StreamHandle) (ops : List StreamOp) :
    ∀ p : StreamPool, PoolWF init p → PoolWF init (applyStreamOps p ops) := by
  induction ops with
  | nil => intro p h; simpa [applyStreamOps] using h
  | cons op rest ih =>
    intro p h
    have h1 : applyStreamOps p (op :: rest) = applyStreamOps (applyStreamOp p op) rest := rfl
    rw [h1]
    exact ih (applyStreamOp p op) (applyStreamOp_preserves_wf init p op h)

/-- C6: starting from a well-formed pool over a duplicate-free initial
handle set, after any sequence of CreateStream/FreeStream calls the pool
stays well formed, the total number of handles (free plus assigned)
equals the initialization size, and no handle is both free and
assigned. -/
theorem stream_pool_size_invariant (init : List StreamHandle) (p : StreamPool)
    (ops : List StreamOp) (hnd : init.Nodup) (hwf : PoolWF init p) :
    PoolWF init (applyStreamOps p ops) ∧
    (applyStreamOps p ops).free_streams.length + (applyStreamOps p ops).assigned.length =
      init.length ∧
    List.Disjoint (applyStreamOps p ops).free_streams (applyStreamOps p ops).assigned := by
  have hq : PoolWF init (applyStreamOps p ops) := applyStreamOps_preserves_wf init ops p hwf
  refine ⟨hq, ?_, ?_⟩
  · have := hq.length_eq
    simpa [List.length_append] using this
  · have hnodup : ((applyStreamOps p ops).free_streams ++
        (applyStreamOps p ops).assigned).Nodup := hq.symm.nodup hnd
    exact (List.nodup_append.mp hnodup).2.2

/-- Witness for C6: pool initialized with handles 10 and 20, then one
create followed by the matching free; size and disjointness hold. -/
theorem stream_pool_size_invariant_witness :
    PoolWF [10, 20] (applyStreamOps (StreamPool.mk [10, 20] []) [StreamOp.create, StreamOp.free 10]) ∧
    (applyStreamOps (StreamPool.mk [10, 20] []) [StreamOp.create, StreamOp.free 10]).free_streams.length +
      (applyStreamOps (StreamPool.mk [10, 20] []) [StreamOp.create, StreamOp.free 10]).assigned.length =
      (List.length [10, 20]) ∧
    List.Disjoint
      (applyStreamOps (StreamPool.mk [10, 20] []) [StreamOp.create, StreamOp.free 10]).free_streams
      (applyStreamOps (StreamPool.mk [10, 20] []) [StreamOp.create, StreamOp.free 10]).assigned :=
  stream_pool_size_invariant [10, 20] (StreamPool.mk [10, 20] [])
    [StreamOp.create, StreamOp.free 10] (by decide) (by simp [PoolWF])

/-- One unit of asynchronous work handed to Dispatch: a function
reference with its argument payload. -/
structure WorkItem where
  fid : Nat
  arg : Nat
deriving DecidableEq, Repr

/-- Modelled from the spec: Dispatch (declared at header line 138, body
not under src) targeting a non-sentinel stream enqueues the work item at
the tail of the FIFO work queue of that stream (spec sections 4.7
and 5). -/
def DispatchEnqueue (q : List WorkItem) (w : WorkItem) : List WorkItem :=
  q ++ [w]

/-- Modelled from the spec: the worker backing a stream executes the
work queue strictly in FIFO order (spec section 5), so the execution
trace of a stream, the list of work items in the order their side
effects occur, is the queue itself. -/
def executionTrace (q : List WorkItem) : List WorkItem := q

/-- C7: two Dispatch calls on the same stream queue execute in
submission order: the trace splits as everything already queued, then
the first dispatched item, then the second. -/
theorem dispatch_same_stream_fifo (q : List WorkItem) (w1 w2 : WorkItem) :
    executionTrace (DispatchEnqueue (DispatchEnqueue q w1) w2) =
      q ++ (w1 :: [w2]) ∧
    (executionTrace (DispatchEnqueue (DispatchEnqueue q w1) w2)).drop q.length =
      w1 :: [w2] := by
  constructor
  · simp [executionTrace, DispatchEnqueue]
  · simp [executionTrace, DispatchEnqueue, List.drop_append]

/-- The device descriptor: a device type and a device id, as in
DLDevice. -/
structure Device where
  device_type : Int
  device_id : Int
deriving DecidableEq, Repr

/-- IsValidDevice, header lines 163-167: the device type must be the
Hexagon device type (kDLHexagon, 16) or the CPU device type
(kDLCPU, 1). -/
def IsValidDevice (dev : Device) : Bool :=
  (dev.device_type == 16) || (dev.device_type == 1)

/-- The full facade state: the data members of HexagonDeviceAPI at
header lines 174-180. -/
structure HexagonDeviceAPIState where
  hexagon_buffer_map_ : BufferMap
  free_streams : List StreamHandle
  active_stream : StreamHandle
deriving DecidableEq, Repr

/-- SetDevice, header line 65: the body is empty, so the call mutates
nothing and cannot report an error; it returns the state as is. -/
def SetDevice (s : HexagonDeviceAPIState) (dev : Device) :
    Except HexError HexagonDeviceAPIState :=
  Except.ok s

/-- StreamSync, header line 71: the body is empty, so the call mutates
nothing and cannot report an error; it returns the state as is. -/
def StreamSync (s : HexagonDeviceAPIState) (dev : Device) (stream : StreamHandle) :
    Except HexError HexagonDeviceAPIState :=
  Except.ok s

/-- C8: for every device and stream argument, SetDevice and StreamSync
leave the whole facade state (buffer map, stream pool, active stream)
unchanged and report no error. -/
theorem setDevice_streamSync_noops (s : HexagonDeviceAPIState) (dev : Device)
    (stream : StreamHandle) :
    SetDevice s dev = Except.ok s ∧ StreamSync s dev stream = Except.ok s := by
  exact ⟨rfl, rfl⟩

/-- The sentinel stream handle: (void*)-1 read as a 64-bit pointer. -/
def streamSentinel : StreamHandle := 2 ^ 64 - 1

/-- The declared default value of the stream parameter of Dispatch,
header line 138. -/
def dispatchStreamDefault : StreamHandle := streamSentinel

/-- The in-class initializer of active_stream, header line 180. -/
def activeStreamInit : StreamHandle := streamSentinel

/-- The stream a Dispatch call runs against, per the C++ semantics of
the default argument at header line 138: an omitted argument uses the
declared default, a compile-time constant; the recorded active stream of
the object plays no part in it. -/
def dispatchEffectiveStream (explicitStream : Option StreamHandle)
    (recordedActiveStream : StreamHandle) : StreamHandle :=
  match explicitStream with
  | some h => h
  | none => dispatchStreamDefault

/-- C9: a Dispatch call that supplies no stream argument uses the
sentinel, which is also the initial value of active_stream, and the
stream it uses is independent of whatever SetStream recorded. -/
theorem dispatch_default_is_sentinel (a b : StreamHandle) :
    dispatchEffectiveStream none a = streamSentinel ∧
    activeStreamInit = streamSentinel ∧
    dispatchStreamDefault = streamSentinel ∧
    dispatchEffectiveStream none a = dispatchEffectiveStream none b := by
  exact ⟨rfl, rfl, rfl, rfl⟩
